import Mathlib

/-!
Shallow embedding of the training-pipeline driver in
`src/digit_recognizer/train.py` (class `Train`), together with
spec-modelled definitions for the repository utilities that are imported
by the driver but whose source is not part of this fragment
(`load_json_file`, `check_directory_path_existence`, `add_to_log`,
`Dataset`, `Model`) and for the external checkpoint store.

Python state is made explicit: the driver object is a record whose
dynamically-created attributes are `Option` fields, each method is a
function from the driver state and an environment to a `StepResult`
carrying the new state, the list of observable side effects, and the
raised error, if any.
-/

/-- A JSON-like value, standing for the parsed contents of a
configuration file and the values stored inside it. -/
inductive Json where
  | null : Json
  | num : Int → Json
  | str : String → Json
  | obj : List (String × Json) → Json

/-- Errors a driver method can raise.  `assertionError` stands for a
failed Python `assert` (the InvalidArgument of the spec), `attributeError`
for access to an attribute never set, `keyError` for a missing dictionary
key (the ConfigFieldMissing of the spec), `fileNotFound` for a missing
configuration file (ConfigNotFound). -/
inductive PyError where
  | assertionError : String → PyError
  | attributeError : String → PyError
  | keyError : String → PyError
  | fileNotFound : String → PyError
deriving DecidableEq, Repr

/-- A dynamically-typed Python value, as passed to the driver methods. -/
inductive PyValue where
  | str : String → PyValue
  | int : Int → PyValue
  | bool : Bool → PyValue
  | none : PyValue
deriving DecidableEq, Repr

/-- Python subscripting `j[k]`: a missing key raises `KeyError`; we also
map subscripting a non-object to a missing-key failure. -/
def Json.getItem (j : Json) (k : String) : Except PyError Json :=
  match j with
  | Json.obj fields =>
      match fields.lookup k with
      | some v => Except.ok v
      | Option.none => Except.error (PyError.keyError k)
  | _ => Except.error (PyError.keyError k)

/-- The nested access `configuration\x7b"model"\x7d...` performed when the
optimizer is built: `cfg["model"]["optimizer"]["learning_rate"]`. -/
def optimizer_learning_rate (cfg : Json) : Except PyError Json :=
  (cfg.getItem "model").bind
    (fun j => (j.getItem "optimizer").bind
      (fun j2 => j2.getItem "learning_rate"))

/-- Model parameters: either freshly initialized, or restored from the
snapshot saved at a given step. -/
inductive ModelParams where
  | fresh : ModelParams
  | restoredFrom : Nat → ModelParams
deriving DecidableEq, Repr

/-- Modelled from the spec: the ModelFactory collaborator
(`src.digit_recognizer.model.Model`, not in this fragment) builds a
trainable model from the configuration; its parameters start freshly
initialized. -/
structure ModelHandle where
  config : Json
  params : ModelParams

/-- Modelled from the spec: the DatasetProvider collaborator
(`src.digit_recognizer.dataset.Dataset`, not in this fragment) ingests
raw samples, splits them into train/validation/test partitions and
produces shuffled, batched views; the flags record which of its three
steps have run. -/
structure DatasetHandle where
  config : Json
  dataLoaded : Bool
  splitDone : Bool
  shuffledSliced : Bool

/-- The optimizer handle: records the learning-rate value it was built
with (`tf.keras.optimizers.Adam(learning_rate=...)`). -/
structure Optimizer where
  learning_rate : Json

/-- The checkpoint manager handle: bound to a directory and a retention
count (`tf.train.CheckpointManager(..., directory=..., max_to_keep=3)`). -/
structure CheckpointManager where
  directory : String
  max_to_keep : Nat

/-- Observable side effects of a driver method: log lines appended,
directories ensured to exist, files written. -/
inductive Effect where
  | log : String → Effect
  | dirEnsured : String → Effect
  | fileCreated : String → Effect
deriving DecidableEq, Repr

/-- The environment a run observes: the current working directory, the
configuration store (file name and directory to parsed contents, `none`
when no such file exists), and the checkpoint store (directory to the
steps of the snapshots it holds). -/
structure Env where
  cwd : String
  configs : String → String → Option Json
  checkpointSteps : String → List Nat

/-- The driver object of class `Train`.  Attributes that the constructor
does not create are `Option` fields holding `none` until the method that
creates them runs; reading them while `none` raises `AttributeError`. -/
structure Train where
  model_version : String
  best_validation_loss : Option Int
  home_directory_path : Option String
  model_configuration : Option Json
  dataset : Option DatasetHandle
  model : Option ModelHandle
  optimizer : Option Optimizer
  checkpoint_directory_path : Option String
  manager : Option CheckpointManager
  reports_directory_path : Option String

/-- Result of running one driver method: the driver state afterwards
(Python mutations performed before an exception persist), the effects
performed, and the error raised, `none` on success. -/
structure StepResult where
  state : Train
  effects : List Effect
  error : Option PyError

/-- `Train.__init__`: asserts the version is string-typed, then stores it
and initializes `best_validation_loss` to the unset sentinel. -/
def Train.init (model_version : PyValue) : Except PyError Train :=
  match model_version with
  | PyValue.str s =>
      Except.ok {
        model_version := s
        best_validation_loss := Option.none
        home_directory_path := Option.none
        model_configuration := Option.none
        dataset := Option.none
        model := Option.none
        optimizer := Option.none
        checkpoint_directory_path := Option.none
        manager := Option.none
        reports_directory_path := Option.none }
  | _ => Except.error (PyError.assertionError "Variable model_version of type str.")

/-- Modelled from the spec: `src.utils.load_json_file` (ConfigStore, not
in this fragment) resolves `directory_path/file_name` and returns the
parsed JSON document, failing with ConfigNotFound when absent. -/
def load_json_file (env : Env) (file_name : String) (directory_path : String) :
    Except PyError Json :=
  match env.configs file_name directory_path with
  | some j => Except.ok j
  | Option.none => Except.error (PyError.fileNotFound (directory_path ++ "/" ++ file_name))

/-- `Train.load_model_configuration`: resolves the current working
directory, derives the configuration directory, and asks the
configuration store for the file keyed by the version. -/
def Train.load_model_configuration (t : Train) (env : Env) : StepResult :=
  let home := env.cwd
  let dir := home ++ "/configs/models/digit_recognizer"
  let t1 : Train := { t with home_directory_path := some home }
  match load_json_file env ("v" ++ t.model_version) dir with
  | Except.ok cfg =>
      { state := { t1 with model_configuration := some cfg }, effects := [], error := Option.none }
  | Except.error e =>
      { state := t1, effects := [], error := some e }

/-- `Train.load_dataset`: reads `self.model_configuration` (raising
`AttributeError` when it was never set) and drives the DatasetProvider
through its three steps. -/
def Train.load_dataset (t : Train) : StepResult :=
  match t.model_configuration with
  | Option.none =>
      { state := t, effects := [], error := some (PyError.attributeError "model_configuration") }
  | some cfg =>
      let ds0 : DatasetHandle :=
        { config := cfg, dataLoaded := false, splitDone := false, shuffledSliced := false }
      let ds1 : DatasetHandle := { ds0 with dataLoaded := true }
      let ds2 : DatasetHandle := { ds1 with splitDone := true }
      let ds3 : DatasetHandle := { ds2 with shuffledSliced := true }
      { state := { t with dataset := some ds3 }, effects := [], error := Option.none }

/-- Modelled from the spec: the CheckpointStore collaborator
(`tf.train.latest_checkpoint`) returns the most recent snapshot in the
directory, `none` when the directory holds no snapshot. -/
def latestCheckpoint (env : Env) (dir : String) : Option Nat :=
  (env.checkpointSteps dir).max?

/-- `Train.load_model`: asserts the mode, builds the model, builds the
optimizer from `configuration["model"]["optimizer"]["learning_rate"]`,
derives the checkpoint directory, creates the checkpoint manager with a
retention of 3, restores the most recent snapshot when the mode is
predict (a silent no-op when none exists), and logs completion. -/
def Train.load_model (t : Train) (env : Env) (mode : PyValue) : StepResult :=
  match mode with
  | PyValue.str m =>
      if m = "train" ∨ m = "predict" then
        match t.model_configuration with
        | Option.none =>
            { state := t, effects := [],
              error := some (PyError.attributeError "model_configuration") }
        | some cfg =>
          let t1 : Train := { t with model := some { config := cfg, params := ModelParams.fresh } }
          match optimizer_learning_rate cfg with
          | Except.error e => { state := t1, effects := [], error := some e }
          | Except.ok lr =>
            let t2 : Train := { t1 with optimizer := some { learning_rate := lr } }
            match t2.home_directory_path with
            | Option.none =>
                { state := t2, effects := [],
                  error := some (PyError.attributeError "home_directory_path") }
            | some home =>
              let ckptDir :=
                home ++ "/models/digit_recognizer/v" ++ t.model_version ++ "/checkpoints"
              let t3 : Train :=
                { t2 with
                  checkpoint_directory_path := some ckptDir
                  manager := some { directory := ckptDir, max_to_keep := 3 } }
              let t4 : Train :=
                if m = "predict" then
                  match latestCheckpoint env ckptDir with
                  | some step =>
                      { t3 with
                        model := some { config := cfg, params := ModelParams.restoredFrom step } }
                  | Option.none => t3
                else t3
              { state := t4
                effects :=
                  [Effect.log "Finished loading model for current configuration.",
                   Effect.log ""]
                error := Option.none }
      else
        { state := t, effects := [],
          error := some (PyError.assertionError
            "Variable mode should have train or predict as value.") }
  | _ =>
      { state := t, effects := [],
        error := some (PyError.assertionError "Variable mode should be of type str.") }

/-- Modelled from the spec: the textual model summary (layer names,
shapes, parameter counts) captured from the framework and appended to the
log; its exact contents are owned by the framework. -/
def model_summary (mh : ModelHandle) : String :=
  match mh.params with
  | ModelParams.fresh => "Model summary: freshly initialized parameters."
  | ModelParams.restoredFrom step =>
      "Model summary: parameters restored from step " ++ toString step ++ "."

/-- Modelled from the spec: `src.utils.check_directory_path_existence`
(not in this fragment) ensures `<cwd>/<relative path>` exists, creating
it on demand, and returns the resolved path. -/
def check_directory_path_existence (env : Env) (relative_path : String) :
    String × List Effect :=
  let p := env.cwd ++ "/" ++ relative_path
  (p, [Effect.dirEnsured p])

/-- `Train.generate_model_summary_and_plot`: builds the plottable graph
from `self.model` (raising `AttributeError` when it was never set), logs
the summary block, ensures the reports directory exists, and when `plot`
is true writes `model_plot.png` there and logs a confirmation block. -/
def Train.generate_model_summary_and_plot (t : Train) (env : Env) (plot : Bool) :
    StepResult :=
  match t.model with
  | Option.none =>
      { state := t, effects := [], error := some (PyError.attributeError "model") }
  | some mh =>
      let summaryEffs := [Effect.log (model_summary mh), Effect.log ""]
      let rel := "models/digit_recognizer/v" ++ t.model_version ++ "/reports"
      let rp := (check_directory_path_existence env rel).1
      let dirEffs := (check_directory_path_existence env rel).2
      let t1 : Train := { t with reports_directory_path := some rp }
      if plot then
        { state := t1
          effects := summaryEffs ++ dirEffs ++
            [Effect.fileCreated (rp ++ "/model_plot.png"),
             Effect.log ("Finished saving model plot at " ++ rp ++ "/model_plot.png."),
             Effect.log ""]
          error := Option.none }
      else
        { state := t1, effects := summaryEffs ++ dirEffs, error := Option.none }

/-- The model parameters that result from restoring the most recent of a
list of snapshots: fresh when the list is empty. -/
def restoredParams (steps : List Nat) : ModelParams :=
  match steps.max? with
  | Option.none => ModelParams.fresh
  | some step => ModelParams.restoredFrom step

/-- Recognizes the file-creation effects among a method's effects. -/
def isFileCreated : Effect → Bool
  | Effect.fileCreated _ => true
  | _ => false

/-- A freshly constructed driver for a given (string) version, as
`Train.__init__` produces it. -/
def mkTrain (s : String) : Train :=
  { model_version := s
    best_validation_loss := Option.none
    home_directory_path := Option.none
    model_configuration := Option.none
    dataset := Option.none
    model := Option.none
    optimizer := Option.none
    checkpoint_directory_path := Option.none
    manager := Option.none
    reports_directory_path := Option.none }

/-- A configuration holding the optimizer learning-rate field at its
documented location. -/
def cfgB : Json :=
  Json.obj [("model", Json.obj [("optimizer", Json.obj [("learning_rate", Json.num 1)])])]

/-- A configuration whose optimizer section is missing the learning-rate
field. -/
def cfgNoLR : Json :=
  Json.obj [("model", Json.obj [("optimizer", Json.obj [])])]

/-- An environment holding a configuration file for version 1 and an
empty checkpoint store. -/
def envA : Env :=
  { cwd := "/home/user"
    configs := fun f d =>
      if f = "v1" ∧ d = "/home/user/configs/models/digit_recognizer"
      then some cfgB else Option.none
    checkpointSteps := fun _ => [] }

/-- An environment whose checkpoint store holds snapshots at steps 10,
20 and 30 for version 1. -/
def envB : Env :=
  { cwd := "/home/user"
    configs := fun _ _ => Option.none
    checkpointSteps := fun d =>
      if d = "/home/user/models/digit_recognizer/v1/checkpoints"
      then [10, 20, 30] else [] }

/-- A driver for version 1 whose configuration has been loaded. -/
def trainB : Train :=
  { mkTrain "1" with
      home_directory_path := some "/home/user"
      model_configuration := some cfgB }

/-- A driver for version 1 whose loaded configuration is missing the
learning-rate field. -/
def trainD : Train :=
  { mkTrain "1" with
      home_directory_path := some "/home/user"
      model_configuration := some cfgNoLR }

/-- A driver for version 1 whose model has been loaded. -/
def trainC : Train :=
  { mkTrain "1" with
      model := some { config := cfgB, params := ModelParams.fresh } }

/-- Claim C4: for every version string with an existing configuration
file, load_model_configuration resolves the current working directory,
requests from the configuration store the configuration keyed by
"v" ++ version under the directory cwd/configs/models/digit_recognizer,
and afterwards the driver's configuration state equals the parsed file
contents. -/
theorem C4_load_configuration (t : Train) (env : Env) (cfg : Json)
    (h : env.configs ("v" ++ t.model_version)
      (env.cwd ++ "/configs/models/digit_recognizer") = some cfg) :
    (t.load_model_configuration env).error = Option.none ∧
    (t.load_model_configuration env).state.model_configuration = some cfg ∧
    (t.load_model_configuration env).state.home_directory_path = some env.cwd := by
  simp [Train.load_model_configuration, load_json_file, h]

theorem C4_load_configuration_witness :
    ((mkTrain "1").load_model_configuration envA).error = Option.none ∧
    ((mkTrain "1").load_model_configuration envA).state.model_configuration = some cfgB ∧
    ((mkTrain "1").load_model_configuration envA).state.home_directory_path = some envA.cwd :=
  C4_load_configuration (mkTrain "1") envA cfgB rfl

/-- Claim C2: for every string mode outside the set containing train and
predict, load_model fails with the InvalidArgument assertion, performs no
filesystem side effects, and leaves the driver state, in particular the
model, optimizer and checkpoint-manager fields, unchanged. -/
theorem C2_invalid_mode (t : Train) (env : Env) (m : String)
    (h : ¬ (m = "train" ∨ m = "predict")) :
    t.load_model env (PyValue.str m) =
      { state := t, effects := [],
        error := some (PyError.assertionError
          "Variable mode should have train or predict as value.") } := by
  simp [Train.load_model, h]

theorem C2_invalid_mode_witness :
    (mkTrain "1").load_model envA (PyValue.str "evaluate") =
      { state := mkTrain "1", effects := [],
        error := some (PyError.assertionError
          "Variable mode should have train or predict as value.") } :=
  C2_invalid_mode (mkTrain "1") envA "evaluate" (by decide)

/-- Claim C9: constructing the driver with the empty string as the model
version succeeds, stores the empty string as the model version, and
performs no non-emptiness check. -/
theorem C9_empty_version_accepted :
    Train.init (PyValue.str "") = Except.ok (mkTrain "") ∧
    (mkTrain "").model_version = "" :=
  ⟨rfl, rfl⟩

/-- Claim C7 counterexample: a driver is successfully constructed whose
model version is the empty string, so the non-empty-identifier
requirement does not hold for every successfully constructed driver. -/
theorem C7_counterexample :
    ∃ tr : Train, Train.init (PyValue.str "") = Except.ok tr ∧ tr.model_version = "" :=
  ⟨mkTrain "", rfl, rfl⟩

/-- Claim C7 as amended: for every input that is not string-typed,
construction fails with the InvalidArgument assertion; every string-typed
input, the empty string included, is accepted, so only the type check is
enforced at construction. -/
theorem C7_amended_type_check (v : PyValue)
    (hv : ∀ s : String, v ≠ PyValue.str s) :
    Train.init v =
      Except.error (PyError.assertionError "Variable model_version of type str.") ∧
    ∀ s : String, Train.init (PyValue.str s) = Except.ok (mkTrain s) := by
  constructor
  · cases v with
    | str s => exact absurd rfl (hv s)
    | int n => rfl
    | bool b => rfl
    | none => rfl
  · intro s
    rfl

theorem C7_amended_type_check_witness :
    Train.init (PyValue.int 0) =
      Except.error (PyError.assertionError "Variable model_version of type str.") ∧
    ∀ s : String, Train.init (PyValue.str s) = Except.ok (mkTrain s) :=
  C7_amended_type_check (PyValue.int 0) (fun _ h => PyValue.noConfusion h)

/-- Claim C8: on a driver whose configuration was never loaded, both
load_dataset and load_model with a valid mode fail fast with the
missing-attribute error for the configuration attribute, and
generate_model_summary_and_plot fails with the missing-attribute error
for the model attribute when the model was never loaded. -/
theorem C8_precondition_attribute_errors (t : Train) (env : Env) (m : String) (plot : Bool)
    (hcfg : t.model_configuration = Option.none)
    (hmodel : t.model = Option.none)
    (hm : m = "train" ∨ m = "predict") :
    t.load_dataset =
      { state := t, effects := [],
        error := some (PyError.attributeError "model_configuration") } ∧
    t.load_model env (PyValue.str m) =
      { state := t, effects := [],
        error := some (PyError.attributeError "model_configuration") } ∧
    t.generate_model_summary_and_plot env plot =
      { state := t, effects := [],
        error := some (PyError.attributeError "model") } := by
  refine ⟨?_, ?_, ?_⟩
  · simp [Train.load_dataset, hcfg]
  · rcases hm with rfl | rfl <;> simp [Train.load_model, hcfg]
  · simp [Train.generate_model_summary_and_plot, hmodel]

theorem C8_precondition_attribute_errors_witness :
    (mkTrain "1").load_dataset =
      { state := mkTrain "1", effects := [],
        error := some (PyError.attributeError "model_configuration") } ∧
    (mkTrain "1").load_model envA (PyValue.str "train") =
      { state := mkTrain "1", effects := [],
        error := some (PyError.attributeError "model_configuration") } ∧
    (mkTrain "1").generate_model_summary_and_plot envA false =
      { state := mkTrain "1", effects := [],
        error := some (PyError.attributeError "model") } :=
  C8_precondition_attribute_errors (mkTrain "1") envA "train" false rfl rfl (Or.inl rfl)

/-- The step result leaves the model-version field and the
best-validation-loss field of the driver unchanged. -/
def preservesVersionAndBest (r : StepResult) (t : Train) : Prop :=
  r.state.model_version = t.model_version ∧
  r.state.best_validation_loss = t.best_validation_loss

/-- Claim C10: after construction the best-validation-loss field is the
unset sentinel, and each of the four operations, whether it succeeds or
raises, leaves both the model-version field and the best-validation-loss
field unchanged. -/
theorem C10_frame (t : Train) (env : Env) (s : String) (mode : PyValue) (plot : Bool) :
    Train.init (PyValue.str s) = Except.ok (mkTrain s) ∧
    (mkTrain s).best_validation_loss = Option.none ∧
    preservesVersionAndBest (t.load_model_configuration env) t ∧
    preservesVersionAndBest t.load_dataset t ∧
    preservesVersionAndBest (t.load_model env mode) t ∧
    preservesVersionAndBest (t.generate_model_summary_and_plot env plot) t := by
  refine ⟨rfl, rfl, ?_, ?_, ?_, ?_⟩
  · unfold preservesVersionAndBest Train.load_model_configuration load_json_file
    repeat' (first | split | dsimp only)
    all_goals exact ⟨rfl, rfl⟩
  · unfold preservesVersionAndBest Train.load_dataset
    repeat' (first | split | dsimp only)
    all_goals exact ⟨rfl, rfl⟩
  · unfold preservesVersionAndBest Train.load_model
    cases mode
    all_goals repeat' (first | split | dsimp only)
    all_goals exact ⟨rfl, rfl⟩
  · unfold preservesVersionAndBest Train.generate_model_summary_and_plot
    repeat' (first | split | dsimp only)
    all_goals exact ⟨rfl, rfl⟩

/-- Claim C1: on a driver whose configuration has been loaded (and whose
configuration carries the learning-rate field), load_model in predict
mode raises no error; when the checkpoint directory holds no snapshot
the model parameters stay freshly initialized, and when it holds N ≤ 3
snapshots exactly the most recent one is restored. -/
theorem C1_predict_restore (t : Train) (env : Env) (cfg lr : Json) (home : String)
    (steps : List Nat)
    (hcfg : t.model_configuration = some cfg)
    (hhome : t.home_directory_path = some home)
    (hlr : optimizer_learning_rate cfg = Except.ok lr)
    (hsteps : env.checkpointSteps
      (home ++ "/models/digit_recognizer/v" ++ t.model_version ++ "/checkpoints") = steps)
    (_hlen : steps.length ≤ 3) :
    (t.load_model env (PyValue.str "predict")).error = Option.none ∧
    (t.load_model env (PyValue.str "predict")).state.model =
      some { config := cfg, params := restoredParams steps } := by
  cases hmax : steps.max? <;>
    simp [Train.load_model, hcfg, hhome, hlr, latestCheckpoint, hsteps, hmax,
      restoredParams]

theorem C1_predict_restore_witness :
    (([10, 20, 30] : List Nat).length ≤ 3) ∧
    ((trainB.load_model envB (PyValue.str "predict")).error = Option.none ∧
     (trainB.load_model envB (PyValue.str "predict")).state.model =
       some { config := cfgB, params := restoredParams [10, 20, 30] }) :=
  ⟨by decide,
   C1_predict_restore trainB envB cfgB (Json.num 1) "/home/user" [10, 20, 30]
     rfl rfl rfl rfl (by decide)⟩

/-- Claim C3: after the configuration has been loaded (the configuration
file exists and carries the learning-rate field), load_model in train
mode succeeds, creates a checkpoint manager bound to the directory
cwd/models/digit_recognizer/v(version)/checkpoints retaining the 3 most
recent snapshots, and performs no checkpoint restoration: the model
parameters stay freshly initialized. -/
theorem C3_train_mode_manager (t : Train) (env : Env) (cfg lr : Json)
    (hcfg : env.configs ("v" ++ t.model_version)
      (env.cwd ++ "/configs/models/digit_recognizer") = some cfg)
    (hlr : optimizer_learning_rate cfg = Except.ok lr) :
    (((t.load_model_configuration env).state.load_model env (PyValue.str "train")).error =
      Option.none) ∧
    (((t.load_model_configuration env).state.load_model env (PyValue.str "train")).state.manager =
      some { directory :=
               env.cwd ++ "/models/digit_recognizer/v" ++ t.model_version ++ "/checkpoints",
             max_to_keep := 3 }) ∧
    (((t.load_model_configuration env).state.load_model env (PyValue.str "train")).state.model =
      some { config := cfg, params := ModelParams.fresh }) := by
  simp [Train.load_model_configuration, load_json_file, hcfg, Train.load_model, hlr]

theorem C3_train_mode_manager_witness :
    ((((mkTrain "1").load_model_configuration envA).state.load_model envA
        (PyValue.str "train")).error = Option.none) ∧
    ((((mkTrain "1").load_model_configuration envA).state.load_model envA
        (PyValue.str "train")).state.manager =
      some { directory :=
               envA.cwd ++ "/models/digit_recognizer/v" ++ (mkTrain "1").model_version ++
                 "/checkpoints",
             max_to_keep := 3 }) ∧
    ((((mkTrain "1").load_model_configuration envA).state.load_model envA
        (PyValue.str "train")).state.model =
      some { config := cfgB, params := ModelParams.fresh }) :=
  C3_train_mode_manager (mkTrain "1") envA cfgB (Json.num 1) rfl rfl

/-- Claim C6: when the loaded configuration is missing the nested
learning-rate field, load_model with a valid mode fails with the
missing-key error for that field while building the optimizer: the
optimizer and checkpoint-manager fields are left unset. -/
theorem C6_missing_learning_rate (t : Train) (env : Env) (cfg : Json) (m k : String)
    (hm : m = "train" ∨ m = "predict")
    (hcfg : t.model_configuration = some cfg)
    (habs : optimizer_learning_rate cfg = Except.error (PyError.keyError k)) :
    (t.load_model env (PyValue.str m)).error = some (PyError.keyError k) ∧
    (t.load_model env (PyValue.str m)).state.optimizer = t.optimizer ∧
    (t.load_model env (PyValue.str m)).state.manager = t.manager ∧
    (t.load_model env (PyValue.str m)).state.model =
      some { config := cfg, params := ModelParams.fresh } := by
  rcases hm with rfl | rfl <;> simp [Train.load_model, hcfg, habs]

theorem C6_missing_learning_rate_witness :
    (trainD.load_model envA (PyValue.str "train")).error =
      some (PyError.keyError "learning_rate") ∧
    (trainD.load_model envA (PyValue.str "train")).state.optimizer = trainD.optimizer ∧
    (trainD.load_model envA (PyValue.str "train")).state.manager = trainD.manager ∧
    (trainD.load_model envA (PyValue.str "train")).state.model =
      some { config := cfgNoLR, params := ModelParams.fresh } :=
  C6_missing_learning_rate trainD envA cfgNoLR "train" "learning_rate"
    (Or.inl rfl) rfl rfl

/-- Claim C5: on a driver whose model has been loaded, the summary
operation with plot disabled creates no file at all (in particular no
model_plot.png) and its only log lines are the summary block, while with
plot enabled it creates exactly one file, model_plot.png inside the
reports directory, and logs the confirmation line naming that path. -/
theorem C5_plot_flag (t : Train) (env : Env) (mh : ModelHandle)
    (h : t.model = some mh) :
    ((t.generate_model_summary_and_plot env false).effects.filter isFileCreated = []) ∧
    (∀ s : String,
      Effect.log s ∈ (t.generate_model_summary_and_plot env false).effects →
        s = model_summary mh ∨ s = "") ∧
    ((t.generate_model_summary_and_plot env true).effects.filter isFileCreated =
      [Effect.fileCreated
        (env.cwd ++ "/" ++ ("models/digit_recognizer/v" ++ t.model_version ++ "/reports") ++
          "/model_plot.png")]) ∧
    (Effect.log
        ("Finished saving model plot at " ++
          (env.cwd ++ "/" ++ ("models/digit_recognizer/v" ++ t.model_version ++ "/reports")) ++
          "/model_plot.png.") ∈
      (t.generate_model_summary_and_plot env true).effects) := by
  refine ⟨?_, ?_, ?_, ?_⟩ <;>
    simp [Train.generate_model_summary_and_plot, h, check_directory_path_existence,
      isFileCreated, List.filter]

theorem C5_plot_flag_witness :
    ((trainC.generate_model_summary_and_plot envA false).effects.filter isFileCreated = []) ∧
    (∀ s : String,
      Effect.log s ∈ (trainC.generate_model_summary_and_plot envA false).effects →
        s = model_summary { config := cfgB, params := ModelParams.fresh } ∨ s = "") ∧
    ((trainC.generate_model_summary_and_plot envA true).effects.filter isFileCreated =
      [Effect.fileCreated
        (envA.cwd ++ "/" ++
          ("models/digit_recognizer/v" ++ trainC.model_version ++ "/reports") ++
          "/model_plot.png")]) ∧
    (Effect.log
        ("Finished saving model plot at " ++
          (envA.cwd ++ "/" ++
            ("models/digit_recognizer/v" ++ trainC.model_version ++ "/reports")) ++
          "/model_plot.png.") ∈
      (trainC.generate_model_summary_and_plot envA true).effects) :=
  C5_plot_flag trainC envA { config := cfgB, params := ModelParams.fresh } rfl
